import Mathlib

/-
  Verification development for the OpenANN core: the FullyConnected layer
  (src/OpenANN/layers/FullyConnected.h) and the DataSetView index wrapper
  (src/unnamed/part_000).  Both source files are C++ headers: they declare the
  state (members) and the operation signatures, while the operation bodies live
  in translation units that are not part of the visible sources.  The state
  model below is translated from the headers; each operation body is modelled
  from the specification, as marked in its doc comment.

  Scalars (the C++ `fpt` floating-point type) are modelled as rationals, so
  that the algebraic content of the claims (shapes, linear algebra, error
  discipline) is exact and executable.
-/

namespace OpenANN

/-- Vector type `Vt` (Eigen dense vector) modelled as a list of rationals. -/
abbrev Vt := List ℚ

/-- Matrix type `Mt` (Eigen dense matrix) modelled as a list of rows. -/
abbrev Mt := List (List ℚ)

/-- Dot product of two vectors (zip-multiply-sum; extra entries ignored). -/
def dot (u v : Vt) : ℚ := (List.zipWith (fun p q => p * q) u v).sum

/-- Matrix-vector product `W · v`: one dot product per row. -/
def matVec (W : Mt) (v : Vt) : Vt := W.map (fun row => dot row v)

/-- Outer product `d · xᵗ`: row i is `d i` times the vector `xv`. -/
def outer (d xv : Vt) : Mt := d.map (fun di => xv.map (fun xj => di * xj))

/-- The first `n` columns of `W`, as rows of the transpose.  Taking `n = I`
drops the trailing bias column of a `J × (I+1)` weight matrix. -/
def transposeCols (n : Nat) (W : Mt) : Mt :=
  (List.range n).map (fun j => W.map (fun row => row.getD j 0))

/-- Modelled from the spec: the activation-function selector is an enumerated
identifier (`ActivationFunctions.h` is not among the visible sources); the
kernels themselves are opaque elementwise functions, out of scope. -/
inductive ActivationFunction
  | logistic
  | tanhAct
  | linear
  deriving DecidableEq

/-- Modelled from the spec: decoding a raw integer selector into a member of
the activation enumeration; out-of-range selectors are invalid. -/
def decodeActivationFunction (c : Int) : Option ActivationFunction :=
  if c = 0 then some ActivationFunction.logistic
  else if c = 1 then some ActivationFunction.tanhAct
  else if c = 2 then some ActivationFunction.linear
  else none

/-- The error taxonomy of the spec (section 7). -/
inductive LayerError
  | shapeMismatch
  | protocolViolation
  | invalidConfiguration
  deriving DecidableEq

/-- `OutputInfo`: the shape a layer produces, at minimum its output count. -/
structure OutputInfo where
  outputs : Nat
  deriving DecidableEq

/-- The `FullyConnected` layer state, field for field from the class members in
src/OpenANN/layers/FullyConnected.h (the `Logger` member carries no numeric
state and is dropped).  The cached input pointer `x` is an `Option`: `none`
models the fresh state in which no forward pass has supplied an input yet. -/
structure FullyConnected where
  I : Nat
  J : Nat
  bias : Bool
  act : ActivationFunction
  stdDev : ℚ
  W : Mt
  Wd : Mt
  x : Option Vt
  a : Vt
  y : Vt
  yd : Vt
  deltas : Vt
  e : Vt
  deriving DecidableEq

/-- Effective input dimension: `I`, plus one for the implicit bias unit. -/
def effInputs (I : Nat) (bias : Bool) : Nat := I + (if bias then 1 else 0)

/-- Bias augmentation: append a trailing constant 1 iff `bias` is set. -/
def augment (bias : Bool) (xv : Vt) : Vt := if bias then xv ++ [1] else xv

/-- Modelled from the spec: the `FullyConnected` constructor body is not among
the visible sources.  Section 7 (InvalidConfiguration): a non-positive unit
count or an invalid activation selector fails at construction.  `info` carries
the upstream output count, which becomes this layer's input count `I`. -/
def FullyConnected.construct (info : OutputInfo) (J : Int) (bias : Bool)
    (actCode : Int) (stdDev : ℚ) : Except LayerError FullyConnected :=
  if J ≤ 0 then Except.error LayerError.invalidConfiguration
  else
    match decodeActivationFunction actCode with
    | none => Except.error LayerError.invalidConfiguration
    | some af =>
        Except.ok
          { I := info.outputs, J := J.toNat, bias := bias, act := af,
            stdDev := stdDev, W := [], Wd := [], x := none,
            a := [], y := [], yd := [], deltas := [], e := [] }

/-- Modelled from the spec: `initialize` (body not among the visible sources)
allocates every owned buffer to its final size, draws the `J × (I+bias)` weight
matrix from the random source `draw`, zeroes the gradient matrix, and returns
the produced shape.  The cached input pointer starts absent. -/
def FullyConnected.initializeFC (l : FullyConnected) (draw : Nat → Nat → ℚ) :
    FullyConnected × OutputInfo :=
  let n := effInputs l.I l.bias
  ({ l with
      W := (List.range l.J).map (fun i => (List.range n).map (fun j => draw i j)),
      Wd := (List.range l.J).map (fun _ => (List.range n).map (fun _ => (0 : ℚ))),
      x := none,
      a := List.replicate l.J 0,
      y := List.replicate l.J 0,
      yd := List.replicate l.J 0,
      deltas := List.replicate l.J 0,
      e := List.replicate l.I 0 },
   { outputs := l.J })

/-- Modelled from the spec: `forwardPropagate` (body not among the visible
sources).  Spec section 4.2: check the input dimension against `I` (shape
mismatch fails loudly); compute `a = W x̂` with `x̂` the bias-augmented input,
`y = act(a)` elementwise; cache `a`, the input pointer `x`, and the elementwise
derivative `actD(a)` as `yd`; hand back the layer's own `y` buffer.  The opaque
activation kernel and its derivative are passed as the function pair
`actF`/`actD` (spec section 6: the kernel is an external collaborator). -/
def FullyConnected.forwardPropagate (l : FullyConnected) (actF actD : ℚ → ℚ)
    (xv : Vt) : Except LayerError (FullyConnected × Vt) :=
  if xv.length = l.I then
    let xh := augment l.bias xv
    let av := matVec l.W xh
    let lNext := { l with x := some xv, a := av,
                          y := av.map actF, yd := av.map actD }
    Except.ok (lNext, lNext.y)
  else Except.error LayerError.shapeMismatch

/-- Modelled from the spec: `backpropagate` (body not among the visible
sources).  Spec sections 4.2, 7 and 8: without a preceding forward pass the
call is a ProtocolViolation; an error vector whose size differs from `J` is a
shape mismatch; otherwise `deltas = ein ⊙ yd`, the gradient is overwritten
with the outer product `deltas · x̂ᵗ`, and the upstream error `e = Wᵗ · deltas`
keeps only the `I` non-bias columns; hand back the layer's own `e` buffer. -/
def FullyConnected.backpropagate (l : FullyConnected) (ein : Vt) :
    Except LayerError (FullyConnected × Vt) :=
  match l.x with
  | none => Except.error LayerError.protocolViolation
  | some xin =>
      if ein.length = l.J then
        let ds := List.zipWith (fun p q => p * q) ein l.yd
        let lNext := { l with deltas := ds,
                              Wd := outer ds (augment l.bias xin),
                              e := matVec (transposeCols l.I l.W) ds }
        Except.ok (lNext, lNext.e)
      else Except.error LayerError.shapeMismatch

/-- The layer of the spec's worked scenario: I=2, J=1, no bias, identity
activation, `W = [[2, -1]]`, fresh (no cached input). -/
def scenarioLayer : FullyConnected :=
  { I := 2, J := 1, bias := false, act := ActivationFunction.linear,
    stdDev := 0, W := [[2, -1]], Wd := [[0, 0]], x := none,
    a := [0], y := [0], yd := [0], deltas := [0], e := [0, 0] }

/-- The scenario layer after the forward pass on input `[3, 4]`. -/
def scenarioAfterForward : FullyConnected :=
  { I := 2, J := 1, bias := false, act := ActivationFunction.linear,
    stdDev := 0, W := [[2, -1]], Wd := [[0, 0]], x := some [3, 4],
    a := [2], y := [2], yd := [1], deltas := [0], e := [0, 0] }

/-- The scenario layer after the backward pass with ein = [1]. -/
def scenarioAfterBackward : FullyConnected :=
  { I := 2, J := 1, bias := false, act := ActivationFunction.linear,
    stdDev := 0, W := [[2, -1]], Wd := [[3, 4]], x := some [3, 4],
    a := [2], y := [2], yd := [1], deltas := [1], e := [2, -1] }

/-- C1: on the scenario layer (I=2, J=1, bias=false, identity activation,
W=[[2,-1]]), forward propagation of [3,4] yields output [2]; the subsequent
backward pass with ein=[1] yields weight gradient [[3,4]] and upstream error
[2,-1]. -/
theorem fc_scenario_forward_backward :
    ∃ l1 : FullyConnected,
      scenarioLayer.forwardPropagate (fun t => t) (fun _ => 1) [3, 4] =
        Except.ok (l1, [2]) ∧
      ∃ l2 : FullyConnected,
        l1.backpropagate [1] = Except.ok (l2, [2, -1]) ∧ l2.Wd = [[3, 4]] := by
  refine ⟨scenarioAfterForward, ?_, scenarioAfterBackward, ?_, ?_⟩
  · norm_num [FullyConnected.forwardPropagate, scenarioLayer,
      scenarioAfterForward, matVec, dot, augment]
  · norm_num [FullyConnected.backpropagate, scenarioAfterForward,
      scenarioAfterBackward, matVec, dot, augment, outer, transposeCols,
      List.range_succ]
  · norm_num [scenarioAfterBackward]

/-- Helper: a shape-respecting forward call succeeds, with the explicit
post-state. -/
theorem forward_ok (l : FullyConnected) (actF actD : ℚ → ℚ) (xv : Vt)
    (hx : xv.length = l.I) :
    l.forwardPropagate actF actD xv =
      Except.ok
        ({ l with x := some xv, a := matVec l.W (augment l.bias xv),
                  y := (matVec l.W (augment l.bias xv)).map actF,
                  yd := (matVec l.W (augment l.bias xv)).map actD },
         (matVec l.W (augment l.bias xv)).map actF) := by
  simp [FullyConnected.forwardPropagate, hx]

/-- Helper: a backward call after a forward pass succeeds, with the explicit
post-state. -/
theorem backward_ok (l : FullyConnected) (ein xin : Vt)
    (hx : l.x = some xin) (he : ein.length = l.J) :
    l.backpropagate ein =
      Except.ok
        ({ l with deltas := List.zipWith (fun p q => p * q) ein l.yd,
                  Wd := outer (List.zipWith (fun p q => p * q) ein l.yd)
                          (augment l.bias xin),
                  e := matVec (transposeCols l.I l.W)
                          (List.zipWith (fun p q => p * q) ein l.yd) },
         matVec (transposeCols l.I l.W)
           (List.zipWith (fun p q => p * q) ein l.yd)) := by
  simp [FullyConnected.backpropagate, hx, he]

/-- Helper: a matrix-vector product has one entry per matrix row. -/
theorem matVec_length (W : Mt) (v : Vt) : (matVec W v).length = W.length := by
  simp [matVec]

/-- Helper: keeping the first `n` columns yields `n` transposed rows. -/
theorem transposeCols_length (n : Nat) (W : Mt) :
    (transposeCols n W).length = n := by
  simp [transposeCols]

/-- C2: forward propagation on an input of the declared size computes the
pre-activation a = W·x̂ (x̂ bias-augmented), the output y = act(a) elementwise,
caches a, the input pointer x, and actD(a) as yd, and returns the layer's own
y buffer. -/
theorem forwardPropagate_spec (l : FullyConnected) (actF actD : ℚ → ℚ)
    (xv : Vt) (hx : xv.length = l.I) :
    ∃ lNext : FullyConnected,
      l.forwardPropagate actF actD xv = Except.ok (lNext, lNext.y) ∧
      lNext.a = matVec l.W (augment l.bias xv) ∧
      lNext.y = lNext.a.map actF ∧
      lNext.yd = lNext.a.map actD ∧
      lNext.x = some xv := by
  refine ⟨_, forward_ok l actF actD xv hx, rfl, rfl, rfl, rfl⟩

/-- Witness for C2: the concrete scenario layer and input. -/
theorem forwardPropagate_spec_witness :
    ∃ lNext : FullyConnected,
      scenarioLayer.forwardPropagate (fun t => t) (fun _ => 1) [3, 4] =
        Except.ok (lNext, lNext.y) ∧
      lNext.a = matVec scenarioLayer.W (augment scenarioLayer.bias [3, 4]) ∧
      lNext.y = lNext.a.map (fun t => t) ∧
      lNext.yd = lNext.a.map (fun _ => 1) ∧
      lNext.x = some [3, 4] :=
  forwardPropagate_spec scenarioLayer (fun t => t) (fun _ => 1) [3, 4] rfl

/-- C3: after a forward pass cached input x, backpropagation computes
deltas = ein ⊙ yd, overwrites the gradient with the outer product
deltas · x̂ᵗ, computes the upstream error from the non-bias columns of W only
(so it has length I), and returns the layer's own e buffer. -/
theorem backpropagate_spec (l : FullyConnected) (ein xin : Vt)
    (hx : l.x = some xin) (he : ein.length = l.J) :
    ∃ lNext : FullyConnected,
      l.backpropagate ein = Except.ok (lNext, lNext.e) ∧
      lNext.deltas = List.zipWith (fun p q => p * q) ein l.yd ∧
      lNext.Wd = outer lNext.deltas (augment l.bias xin) ∧
      lNext.e = matVec (transposeCols l.I l.W) lNext.deltas ∧
      lNext.e.length = l.I := by
  refine ⟨_, backward_ok l ein xin hx he, rfl, rfl, rfl, ?_⟩
  simp [matVec_length, transposeCols_length]

/-- Witness for C3: the concrete scenario layer after its forward pass. -/
theorem backpropagate_spec_witness :
    ∃ lNext : FullyConnected,
      scenarioAfterForward.backpropagate [1] = Except.ok (lNext, lNext.e) ∧
      lNext.deltas = List.zipWith (fun p q => p * q) [1] scenarioAfterForward.yd ∧
      lNext.Wd = outer lNext.deltas (augment scenarioAfterForward.bias [3, 4]) ∧
      lNext.e = matVec (transposeCols scenarioAfterForward.I scenarioAfterForward.W)
                  lNext.deltas ∧
      lNext.e.length = scenarioAfterForward.I :=
  backpropagate_spec scenarioAfterForward [1] [3, 4] rfl rfl

/-- C4: with a weight matrix of J rows, a forward pass on an input of size I
returns an output of exactly size J, and the subsequent backward pass on an
error of size J returns an upstream error of exactly size I; the upstream
vector never has a slot for the bias unit, whatever the bias flag is. -/
theorem propagate_sizes (l : FullyConnected) (actF actD : ℚ → ℚ)
    (xv ein : Vt) (hW : l.W.length = l.J)
    (hx : xv.length = l.I) (he : ein.length = l.J) :
    ∃ (l1 l2 : FullyConnected) (yv ev : Vt),
      l.forwardPropagate actF actD xv = Except.ok (l1, yv) ∧
      yv.length = l.J ∧
      l1.backpropagate ein = Except.ok (l2, ev) ∧
      ev.length = l.I := by
  refine ⟨_, _, _, _, forward_ok l actF actD xv hx, ?_, backward_ok _ ein xv rfl he, ?_⟩
  · simp [matVec_length, hW]
  · simp [matVec_length, transposeCols_length]

/-- Witness for C4: the concrete scenario layer and input. -/
theorem propagate_sizes_witness :
    ∃ (l1 l2 : FullyConnected) (yv ev : Vt),
      scenarioLayer.forwardPropagate (fun t => t) (fun _ => 1) [3, 4] =
        Except.ok (l1, yv) ∧
      yv.length = scenarioLayer.J ∧
      l1.backpropagate [1] = Except.ok (l2, ev) ∧
      ev.length = scenarioLayer.I :=
  propagate_sizes scenarioLayer (fun t => t) (fun _ => 1) [3, 4] [1] rfl rfl rfl

/-- C5: an input vector of the wrong dimensionality makes forward propagation
fail with a shape mismatch, and an error vector of the wrong dimensionality
makes backpropagation fail with a shape mismatch; no call silently truncates,
pads or reshapes. -/
theorem propagate_shape_mismatch (l : FullyConnected) (actF actD : ℚ → ℚ)
    (v : Vt) :
    (v.length ≠ l.I →
      l.forwardPropagate actF actD v = Except.error LayerError.shapeMismatch) ∧
    (∀ xin : Vt, l.x = some xin → v.length ≠ l.J →
      l.backpropagate v = Except.error LayerError.shapeMismatch) := by
  constructor
  · intro h
    simp [FullyConnected.forwardPropagate, h]
  · intro xin hx h
    simp [FullyConnected.backpropagate, hx, h]

/-- Witness for C5: a one-entry vector fed to the scenario layer of input
size 2, and a two-entry error fed to its output of size 1. -/
theorem propagate_shape_mismatch_witness :
    scenarioLayer.forwardPropagate (fun t => t) (fun _ => 1) [5] =
      Except.error LayerError.shapeMismatch ∧
    scenarioAfterForward.backpropagate [1, 2] =
      Except.error LayerError.shapeMismatch :=
  ⟨(propagate_shape_mismatch scenarioLayer (fun t => t) (fun _ => 1) [5]).1
      (by simp [scenarioLayer]),
   (propagate_shape_mismatch scenarioAfterForward (fun t => t) (fun _ => 1)
      [1, 2]).2 [3, 4] rfl (by simp [scenarioAfterForward])⟩

/-- C6: on a freshly initialized layer, on which no forward pass has run,
backpropagation fails with a protocol violation rather than returning any
vector. -/
theorem backpropagate_before_forward (l : FullyConnected)
    (draw : Nat → Nat → ℚ) (ein : Vt) :
    ((l.initializeFC draw).1).backpropagate ein =
      Except.error LayerError.protocolViolation := by
  simp [FullyConnected.initializeFC, FullyConnected.backpropagate]

/-- Witness for C6: the scenario layer right after initialization with the
all-zero draw. -/
theorem backpropagate_before_forward_witness :
    ((scenarioLayer.initializeFC (fun _ _ => 0)).1).backpropagate [1] =
      Except.error LayerError.protocolViolation :=
  backpropagate_before_forward scenarioLayer (fun _ _ => 0) [1]

/-- C7: constructing a layer with a non-positive unit count or an invalid
activation selector fails at construction with InvalidConfiguration; no layer
value is produced, so the failure cannot be deferred to a propagation call. -/
theorem construct_invalid_configuration (info : OutputInfo) (J : Int)
    (bias : Bool) (actCode : Int) (stdDev : ℚ)
    (h : J ≤ 0 ∨ decodeActivationFunction actCode = none) :
    FullyConnected.construct info J bias actCode stdDev =
      Except.error LayerError.invalidConfiguration := by
  rcases h with h | h
  · simp [FullyConnected.construct, h]
  · by_cases hJ : J ≤ 0
    · simp [FullyConnected.construct, hJ]
    · simp [FullyConnected.construct, hJ, h]

/-- Witness for C7: unit count 0 (and, separately, an out-of-range activation
selector) both fail at construction. -/
theorem construct_invalid_configuration_witness :
    FullyConnected.construct { outputs := 2 } 0 false 2 1 =
      Except.error LayerError.invalidConfiguration ∧
    FullyConnected.construct { outputs := 2 } 1 false 17 1 =
      Except.error LayerError.invalidConfiguration :=
  ⟨construct_invalid_configuration { outputs := 2 } 0 false 2 1
      (Or.inl (by norm_num)),
   construct_invalid_configuration { outputs := 2 } 1 false 17 1
      (Or.inr (by simp [decodeActivationFunction]))⟩

/-- C8: forward propagation rewrites only the owned buffers a, y, yd and the
non-owning cached input pointer x; backpropagation rewrites only the owned
buffers deltas, Wd, e; neither call changes the weight matrix W, nor I, J,
bias, act or stdDev.  The two calls are constrained independently: `lf` is
any layer on which a forward call succeeds — a freshly initialized one with
no cached input included — and `lb` any layer on which a backward call
succeeds. -/
theorem propagate_frame (lf lb l1 l2 : FullyConnected) (actF actD : ℚ → ℚ)
    (xv ein yv ev : Vt)
    (hf : lf.forwardPropagate actF actD xv = Except.ok (l1, yv))
    (hb : lb.backpropagate ein = Except.ok (l2, ev)) :
    (l1.W = lf.W ∧ l1.Wd = lf.Wd ∧ l1.deltas = lf.deltas ∧ l1.e = lf.e ∧
     l1.I = lf.I ∧ l1.J = lf.J ∧ l1.bias = lf.bias ∧ l1.act = lf.act ∧
     l1.stdDev = lf.stdDev) ∧
    (l2.W = lb.W ∧ l2.a = lb.a ∧ l2.y = lb.y ∧ l2.yd = lb.yd ∧ l2.x = lb.x ∧
     l2.I = lb.I ∧ l2.J = lb.J ∧ l2.bias = lb.bias ∧ l2.act = lb.act ∧
     l2.stdDev = lb.stdDev) := by
  constructor
  · by_cases hx : xv.length = lf.I
    · rw [forward_ok lf actF actD xv hx] at hf
      simp only [Except.ok.injEq, Prod.mk.injEq] at hf
      obtain ⟨h1, -⟩ := hf
      subst h1
      simp
    · simp [FullyConnected.forwardPropagate, hx] at hf
  · cases hcx : lb.x with
    | none => simp [FullyConnected.backpropagate, hcx] at hb
    | some xin =>
        by_cases he : ein.length = lb.J
        · rw [backward_ok lb ein xin hcx he] at hb
          simp only [Except.ok.injEq, Prod.mk.injEq] at hb
          obtain ⟨h2, -⟩ := hb
          subst h2
          simp [hcx]
        · simp [FullyConnected.backpropagate, hcx, he] at hb

/-- Witness for C8: a forward call on the fresh scenario layer, whose cached
input is still absent, and a backward call on the layer after its forward
pass. -/
theorem propagate_frame_witness :
    (scenarioAfterForward.W = scenarioLayer.W ∧
     scenarioAfterForward.Wd = scenarioLayer.Wd ∧
     scenarioAfterForward.deltas = scenarioLayer.deltas ∧
     scenarioAfterForward.e = scenarioLayer.e ∧
     scenarioAfterForward.I = scenarioLayer.I ∧
     scenarioAfterForward.J = scenarioLayer.J ∧
     scenarioAfterForward.bias = scenarioLayer.bias ∧
     scenarioAfterForward.act = scenarioLayer.act ∧
     scenarioAfterForward.stdDev = scenarioLayer.stdDev) ∧
    (scenarioAfterBackward.W = scenarioAfterForward.W ∧
     scenarioAfterBackward.a = scenarioAfterForward.a ∧
     scenarioAfterBackward.y = scenarioAfterForward.y ∧
     scenarioAfterBackward.yd = scenarioAfterForward.yd ∧
     scenarioAfterBackward.x = scenarioAfterForward.x ∧
     scenarioAfterBackward.I = scenarioAfterForward.I ∧
     scenarioAfterBackward.J = scenarioAfterForward.J ∧
     scenarioAfterBackward.bias = scenarioAfterForward.bias ∧
     scenarioAfterBackward.act = scenarioAfterForward.act ∧
     scenarioAfterBackward.stdDev = scenarioAfterForward.stdDev) :=
  propagate_frame scenarioLayer scenarioAfterForward scenarioAfterForward
    scenarioAfterBackward (fun t => t) (fun _ => 1) [3, 4] [1] [2] [2, -1]
    (by norm_num [FullyConnected.forwardPropagate, scenarioLayer,
          scenarioAfterForward, matVec, dot, augment])
    (by norm_num [FullyConnected.backpropagate, scenarioAfterForward,
          scenarioAfterBackward, matVec, dot, augment, outer, transposeCols,
          List.range_succ])

/-- The `DataSet` boundary (src/unnamed/part_000 includes OpenANN/io/DataSet.h,
which is not among the visible sources).  Modelled from the spec, section 6:
a dataset supplies `samples()`, `inputs()`, `outputs()` counts and per-index
`getInstance(i)` / `getTarget(i)` vector accessors. -/
structure DataSet where
  samples : Nat
  inputs : Nat
  outputs : Nat
  getInstance : Nat → Vt
  getTarget : Nat → Vt

/-- `DataSetView` state, from the class members in src/unnamed/part_000: an
index container into the referenced dataset, and the dataset reference. -/
structure DataSetView where
  indices : List Nat
  dataset : DataSet

/-- The inline constructor `DataSetView(DataSet&)` of src/unnamed/part_000:
an empty view on a dataset, without samples (the index container is
default-constructed, hence empty). -/
def DataSetView.ofDataSet (d : DataSet) : DataSetView :=
  { indices := [], dataset := d }

/-- The inline iterator-range constructor of src/unnamed/part_000: a view
holding a copy of the given index container. -/
def DataSetView.ofIndices (d : DataSet) (idx : List Nat) : DataSetView :=
  { indices := idx, dataset := d }

/-- Modelled from the spec: `DataSetView::samples` (body not among the visible
sources) — the view operates only on its index container, so it exposes as
many samples as it holds indices. -/
def DataSetView.samples (v : DataSetView) : Nat := v.indices.length

/-- Modelled from the spec: `DataSetView::inputs` (body not among the visible
sources) — forwarded to the referenced dataset. -/
def DataSetView.inputs (v : DataSetView) : Nat := v.dataset.inputs

/-- Modelled from the spec: `DataSetView::outputs` (body not among the visible
sources) — forwarded to the referenced dataset. -/
def DataSetView.outputs (v : DataSetView) : Nat := v.dataset.outputs

/-- Modelled from the spec: `DataSetView::getInstance` (body not among the
visible sources) — the referenced dataset's instance at the view's i-th
stored index. -/
def DataSetView.getInstance (v : DataSetView) (i : Nat) : Vt :=
  v.dataset.getInstance (v.indices.getD i 0)

/-- Modelled from the spec: `DataSetView::getTarget` (body not among the
visible sources) — the referenced dataset's target at the view's i-th stored
index. -/
def DataSetView.getTarget (v : DataSetView) (i : Nat) : Vt :=
  v.dataset.getTarget (v.indices.getD i 0)

/-- Fuel-bounded random permutation of an index container (a Fisher-Yates
style selection driven by the random source `rng`): repeatedly pick one
remaining element and move it to the front of the result. -/
def shuffleIndices : Nat → (Nat → Nat) → List Nat → List Nat
  | 0, _, l => l
  | n + 1, rng, l =>
      if l.length = 0 then l
      else
        let a := l.getD (rng n % l.length) 0
        a :: shuffleIndices n rng (l.erase a)

/-- Modelled from the spec: `DataSetView::shuffle` (body not among the visible
sources) — permutes the order of instances within the view by permuting the
index container, the randomness abstracted as the source `rng`; nothing else
changes. -/
def DataSetView.shuffle (v : DataSetView) (rng : Nat → Nat) : DataSetView :=
  { v with indices := shuffleIndices v.indices.length rng v.indices }

/-- Helper: the shuffled index container is a permutation of the original. -/
theorem shuffleIndices_perm (n : Nat) (rng : Nat → Nat) (l : List Nat) :
    (shuffleIndices n rng l).Perm l := by
  induction n generalizing l with
  | zero => simp [shuffleIndices]
  | succ n ih =>
    rw [shuffleIndices]
    by_cases h : l.length = 0
    · simp [h]
    · simp only [h, if_false]
      have hlt : rng n % l.length < l.length :=
        Nat.mod_lt _ (Nat.pos_of_ne_zero h)
      have hmem : l.getD (rng n % l.length) 0 ∈ l := by
        rw [List.getD_eq_getElem l 0 hlt]
        exact List.getElem_mem hlt
      exact ((ih (l.erase _)).cons _).trans (List.perm_cons_erase hmem).symm

/-- Helper: reading a list through all positions in order reproduces the
list. -/
theorem map_getD_range {β : Type} (l : List Nat) (g : Nat → β) :
    (List.range l.length).map (fun i => g (l.getD i 0)) = l.map g := by
  induction l with
  | nil => simp
  | cons a t ih =>
    rw [List.length_cons, List.range_succ_eq_map, List.map_cons, List.map_map]
    simp only [List.getD_cons_zero, Function.comp_def, List.getD_cons_succ]
    rw [ih, List.map_cons]

/-- C9: a DataSetView is pure index indirection — a view built from the
dataset alone has 0 samples, a view built over an index container has one
sample per index, inputs and outputs come from the referenced dataset
regardless of the indices, and instance/target lookups go through the i-th
stored index. -/
theorem dataSetView_pure_indirection (d : DataSet) (idx : List Nat) (i : Nat)
    (hi : i < idx.length) :
    (DataSetView.ofDataSet d).samples = 0 ∧
    (DataSetView.ofIndices d idx).samples = idx.length ∧
    (DataSetView.ofIndices d idx).inputs = d.inputs ∧
    (DataSetView.ofIndices d idx).outputs = d.outputs ∧
    (DataSetView.ofIndices d idx).getInstance i =
      d.getInstance (idx.get ⟨i, hi⟩) ∧
    (DataSetView.ofIndices d idx).getTarget i =
      d.getTarget (idx.get ⟨i, hi⟩) := by
  refine ⟨rfl, rfl, rfl, rfl, ?_, ?_⟩ <;>
    simp [DataSetView.ofIndices, DataSetView.getInstance,
      DataSetView.getTarget, List.getD, List.getElem?_eq_getElem hi]

/-- A small concrete dataset used to instantiate the view theorems. -/
def sampleDataSet : DataSet :=
  { samples := 3, inputs := 2, outputs := 1,
    getInstance := fun i => [(i : ℚ)],
    getTarget := fun i => [(i : ℚ) + 10] }

/-- Witness for C9: a two-index view over the concrete dataset, read at
position 1. -/
theorem dataSetView_pure_indirection_witness :
    (DataSetView.ofDataSet sampleDataSet).samples = 0 ∧
    (DataSetView.ofIndices sampleDataSet [2, 0]).samples = [2, 0].length ∧
    (DataSetView.ofIndices sampleDataSet [2, 0]).inputs = sampleDataSet.inputs ∧
    (DataSetView.ofIndices sampleDataSet [2, 0]).outputs = sampleDataSet.outputs ∧
    (DataSetView.ofIndices sampleDataSet [2, 0]).getInstance 1 =
      sampleDataSet.getInstance ([2, 0].get ⟨1, by norm_num⟩) ∧
    (DataSetView.ofIndices sampleDataSet [2, 0]).getTarget 1 =
      sampleDataSet.getTarget ([2, 0].get ⟨1, by norm_num⟩) :=
  dataSetView_pure_indirection sampleDataSet [2, 0] 1 (by norm_num)

/-- C10: shuffling only permutes the view's index container — sample count,
input and output dimensions and the referenced dataset are unchanged, and the
instances reachable over all positions form the same multiset (stated as a
permutation of the position-indexed instance lists) as before. -/
theorem shuffle_preserves_view (v : DataSetView) (rng : Nat → Nat) :
    (v.shuffle rng).samples = v.samples ∧
    (v.shuffle rng).inputs = v.inputs ∧
    (v.shuffle rng).outputs = v.outputs ∧
    (v.shuffle rng).dataset = v.dataset ∧
    ((List.range (v.shuffle rng).samples).map ((v.shuffle rng).getInstance)).Perm
      ((List.range v.samples).map v.getInstance) := by
  have hperm := shuffleIndices_perm v.indices.length rng v.indices
  refine ⟨?_, rfl, rfl, rfl, ?_⟩
  · simpa [DataSetView.shuffle, DataSetView.samples] using hperm.length_eq
  · have h1 : ((List.range (v.shuffle rng).samples).map
        ((v.shuffle rng).getInstance)) =
        (v.shuffle rng).indices.map v.dataset.getInstance := by
      simp only [DataSetView.samples, DataSetView.getInstance, DataSetView.shuffle]
      exact map_getD_range _ _
    have h2 : ((List.range v.samples).map v.getInstance) =
        v.indices.map v.dataset.getInstance := by
      simp only [DataSetView.samples, DataSetView.getInstance]
      exact map_getD_range _ _
    rw [h1, h2]
    exact hperm.map _

/-- Witness for C10: a three-index view over the concrete dataset shuffled
with the identity random source. -/
theorem shuffle_preserves_view_witness :
    ((DataSetView.ofIndices sampleDataSet [2, 0, 1]).shuffle (fun k => k)).samples =
      (DataSetView.ofIndices sampleDataSet [2, 0, 1]).samples ∧
    ((DataSetView.ofIndices sampleDataSet [2, 0, 1]).shuffle (fun k => k)).inputs =
      (DataSetView.ofIndices sampleDataSet [2, 0, 1]).inputs ∧
    ((DataSetView.ofIndices sampleDataSet [2, 0, 1]).shuffle (fun k => k)).outputs =
      (DataSetView.ofIndices sampleDataSet [2, 0, 1]).outputs ∧
    ((DataSetView.ofIndices sampleDataSet [2, 0, 1]).shuffle (fun k => k)).dataset =
      (DataSetView.ofIndices sampleDataSet [2, 0, 1]).dataset ∧
    ((List.range ((DataSetView.ofIndices sampleDataSet [2, 0, 1]).shuffle
        (fun k => k)).samples).map
      (((DataSetView.ofIndices sampleDataSet [2, 0, 1]).shuffle
        (fun k => k)).getInstance)).Perm
      ((List.range (DataSetView.ofIndices sampleDataSet [2, 0, 1]).samples).map
        ((DataSetView.ofIndices sampleDataSet [2, 0, 1]).getInstance)) :=
  shuffle_preserves_view (DataSetView.ofIndices sampleDataSet [2, 0, 1])
    (fun k => k)

end OpenANN
